import Mathlib

/-!
Verification of the PR Summarizer microservice (src/assignment-3-python/main.py).

The service is a single FastAPI endpoint POST /summarize. A pydantic model
PRInput validates that the request body carries a string field description of
length between 10 and 1000 characters (framework-level 422 on failure). The
handler summarize_pr builds a fixed two-message chat-completion request,
issues one blocking call to the OpenAI client, extracts the first choice's
message content, strips surrounding whitespace and returns it as a one-field
JSON object, or converts any exception into an HTTP 500 whose detail is the
exception's string form.

The embedding below models the handler body, the provider call as an oracle
from requests to outcomes, and the framework validation layer over a small
JSON value type. The list of outbound requests issued is returned alongside
the result so that call-count properties can be stated.
-/

namespace PRSummarizer

/-- Python whitespace characters recognised by str.strip with no argument
(space, tab, newline, carriage return, vertical tab, form feed). -/
def isPySpace (c : Char) : Bool :=
  c = ' ' || c = '\t' || c = '\n' || c = '\r' || c = Char.ofNat 11 || c = Char.ofNat 12

/-- Embedding of Python str.strip(): remove leading and trailing whitespace. -/
def pyStrip (s : String) : String :=
  String.mk (((s.data.dropWhile isPySpace).reverse.dropWhile isPySpace).reverse)

/-- A role-tagged message of the outbound chat-completion request. -/
structure ChatMessage where
  role : String
  content : String
deriving DecidableEq, Repr

/-- The outbound chat-completion request built by the handler
(model name, messages, max_tokens, temperature). -/
structure ChatRequest where
  model : String
  messages : List ChatMessage
  max_tokens : Nat
  temperature : ℚ
deriving DecidableEq, Repr

/-- The message object inside one returned choice; content may be null. -/
structure ChoiceMessage where
  content : Option String
deriving DecidableEq, Repr

/-- One choice of the provider response. -/
structure ChatChoice where
  message : ChoiceMessage
deriving DecidableEq, Repr

/-- A provider response that returned without raising. -/
structure ChatCompletion where
  choices : List ChatChoice
deriving DecidableEq, Repr

/-- Outcome of the outbound call: either an exception with its string form,
or a response object. -/
inductive ProviderOutcome where
  | raise (msg : String)
  | ok (resp : ChatCompletion)
deriving DecidableEq, Repr

/-- The validated request model: class PRInput(BaseModel) with the single
field description. -/
structure PRInput where
  description : String
deriving DecidableEq, Repr

/-- Result of one endpoint invocation: a 200 JSON object, an HTTPException
with status and detail, or the framework's validation rejection. -/
inductive EndpointResult where
  | ok (body : List (String × String))
  | error (status : Nat) (detail : String)
  | invalid (status : Nat)
deriving DecidableEq, Repr

/-- The fixed system instruction of the prompt. -/
def systemPrompt : String :=
  "You are a helpful assistant that summarizes PR descriptions in a concise and professional manner."

/-- Python rendering of the IndexError raised by response.choices[0] on an
empty list. -/
def indexErrorMsg : String := "list index out of range"

/-- Python rendering of the AttributeError raised by calling .strip() on a
None content. -/
def attrErrorMsg : String := "\x27NoneType\x27 object has no attribute \x27strip\x27"

/-- The chat-completion request the handler constructs: fixed model,
fixed system message, the description interpolated into the user message,
max_tokens 50 and temperature 0.5. -/
def buildRequest (description : String) : ChatRequest :=
  { model := "gpt-3.5-turbo"
    messages :=
      [ { role := "system", content := systemPrompt }
      , { role := "user", content := "Summarize this PR: " ++ description } ]
    max_tokens := 50
    temperature := (1 : ℚ) / 2 }

/-- Processing of a response that returned without raising:
response.choices[0].message.content.strip() wrapped as the summary object,
with the IndexError and AttributeError the access path can raise. -/
def extractSummary (resp : ChatCompletion) : EndpointResult :=
  match resp.choices with
  | [] => EndpointResult.error 500 indexErrorMsg
  | c :: _ =>
    match c.message.content with
    | none => EndpointResult.error 500 attrErrorMsg
    | some s => EndpointResult.ok [("summary", pyStrip s)]

/-- The try/except body applied to the outcome of the provider call: any
exception becomes HTTPException(status_code=500, detail=str(e)). -/
def handleOutcome : ProviderOutcome → EndpointResult
  | ProviderOutcome.raise m => EndpointResult.error 500 m
  | ProviderOutcome.ok resp => extractSummary resp

/-- The handler summarize_pr over a provider oracle: it issues exactly the
one request buildRequest data.description and processes the outcome. The
second component records the outbound requests made. -/
def summarize_pr (provider : ChatRequest → ProviderOutcome) (data : PRInput) :
    EndpointResult × List ChatRequest :=
  (handleOutcome (provider (buildRequest data.description)),
   [buildRequest data.description])

/-- A JSON value, for modelling the request body seen by the framework. -/
inductive Json where
  | str (s : String)
  | num (n : Int)
  | bool (b : Bool)
  | null : Json
  | arr (items : List Json)
  | obj (fields : List (String × Json))

/-- The framework validation layer for PRInput: the body must be an object
whose description field is a string of length between 10 and 1000
inclusive; extra fields are ignored (pydantic default); any violation is
the framework's 422 rejection. -/
def validateBody (body : Json) : Except Nat PRInput :=
  match body with
  | Json.obj fields =>
    match fields.lookup "description" with
    | some (Json.str s) =>
      if 10 ≤ s.length ∧ s.length ≤ 1000 then Except.ok { description := s }
      else Except.error 422
    | some _ => Except.error 422
    | none => Except.error 422
  | _ => Except.error 422

/-- The full endpoint POST /summarize: framework validation first, the
handler only on a validated body; a rejected body issues no outbound call. -/
def postSummarize (provider : ChatRequest → ProviderOutcome) (body : Json) :
    EndpointResult × List ChatRequest :=
  match validateBody body with
  | Except.error st => (EndpointResult.invalid st, [])
  | Except.ok data => summarize_pr provider data

/-- Process-wide configuration: the API credential loaded at startup. -/
structure ProcessState where
  apiKey : Option String
deriving DecidableEq, Repr

/-- Startup: client = OpenAI(api_key=os.getenv("OPENAI_API_KEY")), loaded
once from the environment. -/
def startup (env : String → Option String) : ProcessState :=
  { apiKey := env "OPENAI_API_KEY" }

/-- The handler with the process state threaded explicitly: the body reads
the client but assigns no global, so the state passes through unchanged on
every branch. -/
def summarizePrSt (provider : ProcessState → ChatRequest → ProviderOutcome)
    (st : ProcessState) (data : PRInput) : EndpointResult × ProcessState :=
  match provider st (buildRequest data.description) with
  | ProviderOutcome.raise m => (EndpointResult.error 500 m, st)
  | ProviderOutcome.ok resp => (extractSummary resp, st)

end PRSummarizer

namespace PRSummarizer

/-- Claim C1: every exception raised during the outbound provider call is
caught uniformly by summarize_pr and returned as HTTP 500 whose detail
equals the exception's string representation, regardless of failure kind,
and no retry is made: the call trace is the single request. -/
theorem C1_provider_error_uniform_500
    (provider : ChatRequest → ProviderOutcome) (data : PRInput) (m : String)
    (h : provider (buildRequest data.description) = ProviderOutcome.raise m) :
    (summarize_pr provider data).1 = EndpointResult.error 500 m ∧
    (summarize_pr provider data).2 = [buildRequest data.description] := by
  constructor
  · simp [summarize_pr, handleOutcome, h]
  · rfl

/-- Witness for C1 at a concrete always-raising provider and input. -/
theorem C1_provider_error_uniform_500_witness :
    (summarize_pr (fun _ => ProviderOutcome.raise "boom") ⟨"0123456789"⟩).1 =
      EndpointResult.error 500 "boom" ∧
    (summarize_pr (fun _ => ProviderOutcome.raise "boom") ⟨"0123456789"⟩).2 =
      [buildRequest "0123456789"] :=
  C1_provider_error_uniform_500 (fun _ => ProviderOutcome.raise "boom")
    ⟨"0123456789"⟩ "boom" rfl

/-- Claim C2: a description shorter than 10 or longer than 1000 characters
is rejected by the validation layer with the framework's 422 response and
no outbound call is made; lengths exactly 10 and exactly 1000 pass
validation (bounds inclusive). -/
theorem C2_length_validation
    (provider : ChatRequest → ProviderOutcome) (s : String) :
    ((s.length < 10 ∨ 1000 < s.length) →
      postSummarize provider (Json.obj [("description", Json.str s)]) =
        (EndpointResult.invalid 422, [])) ∧
    ((s.length = 10 ∨ s.length = 1000) →
      validateBody (Json.obj [("description", Json.str s)]) =
        Except.ok { description := s }) := by
  constructor
  · intro h
    have hne : ¬ (10 ≤ s.length ∧ s.length ≤ 1000) := by omega
    simp [postSummarize, validateBody, List.lookup, if_neg hne]
  · intro h
    have hle : 10 ≤ s.length ∧ s.length ≤ 1000 := by omega
    simp [validateBody, List.lookup, if_pos hle]

/-- Witness for C2: a 5-character description is rejected with 422 and no
call, and a 10-character description passes validation. -/
theorem C2_length_validation_witness :
    ("short".length < 10 ∨ 1000 < "short".length) ∧
    postSummarize (fun _ => ProviderOutcome.raise "x")
        (Json.obj [("description", Json.str "short")]) =
      (EndpointResult.invalid 422, []) ∧
    ("0123456789".length = 10 ∨ "0123456789".length = 1000) ∧
    validateBody (Json.obj [("description", Json.str "0123456789")]) =
      Except.ok { description := "0123456789" } :=
  ⟨by decide,
   (C2_length_validation (fun _ => ProviderOutcome.raise "x") "short").1 (by decide),
   by decide,
   (C2_length_validation (fun _ => ProviderOutcome.raise "x") "0123456789").2 (by decide)⟩

/-- Claim C3: a valid description of length in [10,1000] makes the endpoint
issue exactly one outbound call, and that call's user-turn message is the
fixed template with the description embedded verbatim. -/
theorem C3_single_call_verbatim
    (provider : ChatRequest → ProviderOutcome) (s : String)
    (h10 : 10 ≤ s.length) (h1000 : s.length ≤ 1000) :
    (postSummarize provider (Json.obj [("description", Json.str s)])).2 =
      [buildRequest s] ∧
    (buildRequest s).messages.get? 1 =
      some { role := "user", content := "Summarize this PR: " ++ s } := by
  constructor
  · simp [postSummarize, validateBody, List.lookup, if_pos (And.intro h10 h1000),
      summarize_pr]
  · rfl

/-- Witness for C3 at a concrete valid description. -/
theorem C3_single_call_verbatim_witness :
    (postSummarize (fun _ => ProviderOutcome.raise "x")
        (Json.obj [("description", Json.str "0123456789")])).2 =
      [buildRequest "0123456789"] ∧
    (buildRequest "0123456789").messages.get? 1 =
      some { role := "user", content := "Summarize this PR: " ++ "0123456789" } :=
  C3_single_call_verbatim (fun _ => ProviderOutcome.raise "x") "0123456789"
    (by decide) (by decide)

end PRSummarizer

namespace PRSummarizer

/-- Claim C4: on a successful provider call the summary field equals the
first choice's message content with leading and trailing whitespace
removed; in particular the mocked choice text evaluates as the spec says. -/
theorem C4_summary_is_trimmed_first_choice
    (provider : ChatRequest → ProviderOutcome) (data : PRInput)
    (c : ChatChoice) (rest : List ChatChoice) (s : String)
    (h : provider (buildRequest data.description) =
      ProviderOutcome.ok { choices := c :: rest })
    (hc : c.message.content = some s) :
    (summarize_pr provider data).1 = EndpointResult.ok [("summary", pyStrip s)] ∧
    pyStrip "  Adds logging.  " = "Adds logging." := by
  refine ⟨?_, by decide⟩
  simp [summarize_pr, handleOutcome, h, extractSummary, hc]

/-- Witness for C4 at a concrete provider returning the mocked choice text. -/
theorem C4_summary_is_trimmed_first_choice_witness :
    (summarize_pr
        (fun _ => ProviderOutcome.ok
          { choices := [{ message := { content := some "  Adds logging.  " } }] })
        ⟨"0123456789"⟩).1 =
      EndpointResult.ok [("summary", pyStrip "  Adds logging.  ")] ∧
    pyStrip "  Adds logging.  " = "Adds logging." :=
  C4_summary_is_trimmed_first_choice
    (fun _ => ProviderOutcome.ok
      { choices := [{ message := { content := some "  Adds logging.  " } }] })
    ⟨"0123456789"⟩ { message := { content := some "  Adds logging.  " } } []
    "  Adds logging.  " rfl rfl

/-- Claim C5: for every input the outbound request has exactly the two
messages (fixed system instruction, then the templated user message), the
fixed model identifier, max_tokens 50 and temperature 0.5; none of these
depend on anything but the description slot of the user message. -/
theorem C5_fixed_request_parameters (s : String) :
    (buildRequest s).model = "gpt-3.5-turbo" ∧
    (buildRequest s).max_tokens = 50 ∧
    (buildRequest s).temperature = (1 : ℚ) / 2 ∧
    (buildRequest s).messages =
      [ { role := "system", content := systemPrompt }
      , { role := "user", content := "Summarize this PR: " ++ s } ] :=
  ⟨rfl, rfl, rfl, rfl⟩

/-- Counterexample to claim C6 as stated: a request carrying an additional
field beyond description is NOT rejected — validation passes, the handler
runs and the provider is called (pydantic ignores extra fields by default). -/
theorem C6_extra_field_not_rejected :
    postSummarize (fun _ => ProviderOutcome.raise "boom")
      (Json.obj [("description", Json.str "0123456789"), ("urgent", Json.bool true)]) =
    (EndpointResult.error 500 "boom", [buildRequest "0123456789"]) := rfl

/-- Claim C6 amended: the request model defines only the description field
and any additional request fields are ignored rather than rejected, and a
success response body has exactly the one key summary. -/
theorem C6_single_fields_amended
    (provider : ChatRequest → ProviderOutcome)
    (s key : String) (v : Json)
    (h10 : 10 ≤ s.length) (h1000 : s.length ≤ 1000) :
    validateBody (Json.obj [("description", Json.str s), (key, v)]) =
      Except.ok { description := s } ∧
    ∀ (d : PRInput) (b : List (String × String)),
      (summarize_pr provider d).1 = EndpointResult.ok b →
      b.map Prod.fst = ["summary"] := by
  constructor
  · simp [validateBody, List.lookup, if_pos (And.intro h10 h1000)]
  · intro d b hb
    simp only [summarize_pr] at hb
    cases hout : provider (buildRequest d.description) with
    | raise m =>
      rw [hout] at hb
      simp [handleOutcome] at hb
    | ok resp =>
      obtain ⟨choices⟩ := resp
      rw [hout] at hb
      cases choices with
      | nil => simp [handleOutcome, extractSummary] at hb
      | cons c rest =>
        obtain ⟨⟨oc⟩⟩ := c
        cases oc with
        | none => simp [handleOutcome, extractSummary] at hb
        | some t =>
          simp [handleOutcome, extractSummary] at hb
          rw [← hb]
          rfl

/-- Witness for the amended C6 at a concrete body with an extra field. -/
theorem C6_single_fields_amended_witness :
    validateBody (Json.obj [("description", Json.str "0123456789"),
        ("urgent", Json.bool true)]) =
      Except.ok { description := "0123456789" } ∧
    ∀ (d : PRInput) (b : List (String × String)),
      (summarize_pr (fun _ => ProviderOutcome.raise "x") d).1 =
        EndpointResult.ok b →
      b.map Prod.fst = ["summary"] :=
  C6_single_fields_amended (fun _ => ProviderOutcome.raise "x") "0123456789"
    "urgent" (Json.bool true) (by decide) (by decide)

/-- Claim C7: each handler invocation leaves the process-wide state — the
API credential loaded once at startup — unchanged, on success and on every
error branch alike. -/
theorem C7_handler_preserves_state
    (provider : ProcessState → ChatRequest → ProviderOutcome)
    (env : String → Option String) (st : ProcessState) (data : PRInput) :
    (summarizePrSt provider st data).2 = st ∧
    (summarizePrSt provider (startup env) data).2 = startup env := by
  constructor
  · unfold summarizePrSt
    cases provider st (buildRequest data.description) <;> rfl
  · unfold summarizePrSt
    cases provider (startup env) (buildRequest data.description) <;> rfl

end PRSummarizer

namespace PRSummarizer

/-- Claim C8: a provider call that returns a malformed response at the
access path used — empty choices list (IndexError) or a None first-choice
content (AttributeError) — is caught by the same except clause and
surfaced as HTTP 500 carrying that exception's string form, never as a
success response. -/
theorem C8_malformed_response_500
    (provider : ChatRequest → ProviderOutcome) (data : PRInput)
    (resp : ChatCompletion)
    (h : provider (buildRequest data.description) = ProviderOutcome.ok resp) :
    (resp.choices = [] →
      (summarize_pr provider data).1 = EndpointResult.error 500 indexErrorMsg) ∧
    (∀ c rest, resp.choices = c :: rest → c.message.content = none →
      (summarize_pr provider data).1 = EndpointResult.error 500 attrErrorMsg) := by
  obtain ⟨choices⟩ := resp
  constructor
  · intro hnil
    simp only at hnil
    subst hnil
    simp [summarize_pr, handleOutcome, h, extractSummary]
  · intro c rest hcons hnone
    simp only at hcons
    subst hcons
    obtain ⟨⟨oc⟩⟩ := c
    simp only at hnone
    subst hnone
    simp [summarize_pr, handleOutcome, h, extractSummary]

/-- Witness for C8 at a concrete provider returning an empty choices list. -/
theorem C8_malformed_response_500_witness :
    (summarize_pr (fun _ => ProviderOutcome.ok { choices := [] })
        ⟨"0123456789"⟩).1 =
      EndpointResult.error 500 indexErrorMsg :=
  (C8_malformed_response_500 (fun _ => ProviderOutcome.ok { choices := [] })
    ⟨"0123456789"⟩ { choices := [] } rfl).1 rfl

/-- Claim C9: a first-choice content consisting entirely of whitespace
yields a success response whose summary is the empty string; no minimum
length is enforced on the output. -/
theorem C9_all_whitespace_gives_empty_summary
    (provider : ChatRequest → ProviderOutcome) (data : PRInput)
    (c : ChatChoice) (rest : List ChatChoice) (s : String)
    (h : provider (buildRequest data.description) =
      ProviderOutcome.ok { choices := c :: rest })
    (hc : c.message.content = some s)
    (hws : ∀ ch ∈ s.data, isPySpace ch = true) :
    (summarize_pr provider data).1 = EndpointResult.ok [("summary", "")] := by
  have hstrip : pyStrip s = "" := by
    unfold pyStrip
    rw [List.dropWhile_eq_nil_iff.mpr hws]
    rfl
  have := C4_summary_is_trimmed_first_choice provider data c rest s h hc
  rw [this.1, hstrip]

/-- Witness for C9 at a concrete provider returning pure whitespace. -/
theorem C9_all_whitespace_gives_empty_summary_witness :
    (summarize_pr
        (fun _ => ProviderOutcome.ok
          { choices := [{ message := { content := some "   " } }] })
        ⟨"0123456789"⟩).1 =
      EndpointResult.ok [("summary", "")] :=
  C9_all_whitespace_gives_empty_summary
    (fun _ => ProviderOutcome.ok
      { choices := [{ message := { content := some "   " } }] })
    ⟨"0123456789"⟩ { message := { content := some "   " } } [] "   "
    rfl rfl (by decide)

/-- Claim C10: a body whose description field is present but not a JSON
string is rejected by the validation layer with the 422 response and no
outbound call: the handler body is never entered. -/
theorem C10_nonstring_description_rejected
    (provider : ChatRequest → ProviderOutcome) (v : Json)
    (h : ∀ s, v ≠ Json.str s) :
    postSummarize provider (Json.obj [("description", v)]) =
      (EndpointResult.invalid 422, []) := by
  cases v with
  | str s => exact absurd rfl (h s)
  | num n => rfl
  | bool b => rfl
  | null => rfl
  | arr items => rfl
  | obj fields => rfl

/-- Witness for C10 at a concrete numeric description. -/
theorem C10_nonstring_description_rejected_witness :
    postSummarize (fun _ => ProviderOutcome.raise "x")
        (Json.obj [("description", Json.num 123)]) =
      (EndpointResult.invalid 422, []) :=
  C10_nonstring_description_rejected (fun _ => ProviderOutcome.raise "x")
    (Json.num 123) (fun _ hEq => Json.noConfusion hEq)

end PRSummarizer
